import Mathlib

/-!
Shallow embedding of `main.py` from FSPermissionRemapper: a FUSE passthrough
filesystem that overlays emulated uid/gid/mode records on a real directory
tree.  The real filesystem is modelled as a read-only view (`RealFS`); the
in-memory permission store (`self.permissions`, a Python dict) is modelled as
an association list in insertion order, since Python dicts preserve insertion
order and `destroy` iterates the store in that order.  Operations that Python
implements by raising exceptions (`os.lstat` on a missing path, `json.load` on
a corrupt file, `list.remove` on an absent element) are modelled with
`Except Unit`.
-/

/-- One value of `self.permissions[path]`: the emulated ownership/mode record
for a virtual path.  Python stores a dict with integer fields
`uid`, `gid`, `mode`. -/
structure PermRecord where
  uid : Nat
  gid : Nat
  mode : Nat
deriving DecidableEq, Repr

/-- The in-memory permission store `self.permissions`: a mapping from virtual
path to record, in insertion order (Python dict semantics). -/
abbrev PermStore := List (String × PermRecord)

/-- The result of `os.lstat` on a real path, restricted to the fields
`main.py` reads.  Python reports the time fields as floats; the claims never
look at their values, so they are carried as opaque naturals here. -/
structure RealStat where
  st_mode : Nat
  st_nlink : Nat
  st_size : Nat
  st_blocks : Nat
  st_blksize : Nat
  st_ino : Nat
  st_dev : Nat
  st_ctime : Nat
  st_mtime : Nat
  st_atime : Nat
deriving DecidableEq, Repr

/-- Read-only view of the real (underlying) filesystem, exposing exactly the
primitives `main.py` calls on it for the operations under study:
`os.lstat`, `os.path.isdir`, `os.listdir`, `os.readlink`.  `lstat p = none`
means the real path does not exist (`os.lstat` raises `FileNotFoundError`). -/
structure RealFS where
  lstat : String → Option RealStat
  isdir : String → Bool
  listdir : String → List String
  readlinkTarget : String → Option String

/-- Constant `PermissionRemappedFilesystem.REMAPPER_PERM_FILE`. -/
def REMAPPER_PERM_FILE : String := ".fs_perm_remapper.json"

/-- Python `s.startswith('/')`, equivalently the `path[0] == '/'` test on a
nonempty string: the first character is a slash.  (Defined over the
character list so that it reduces computationally.) -/
def headIsSlash (s : String) : Bool :=
  match s.data with
  | c :: _ => c = '/'
  | [] => false

/-- Python `s.endswith('/')`: the last character is a slash. -/
def lastIsSlash (s : String) : Bool :=
  match s.data.getLast? with
  | some c => c = '/'
  | none => false

/-- `os.path.join(a, b)` for POSIX paths (two arguments), as implemented by
`posixpath.join`. -/
def osPathJoin (a b : String) : String :=
  if headIsSlash b then b
  else if a = "" ∨ lastIsSlash a then a ++ b
  else a ++ "/" ++ b

/-- `path[1:] if path[0] == '/' else path`.  FUSE always hands the methods a
nonempty `/`-rooted virtual path; on the empty string Python would raise
`IndexError`, a case the claims never exercise. -/
def stripLeadingSlash (p : String) : String :=
  if headIsSlash p then String.mk (p.data.drop 1) else p

/-- `PermissionRemappedFilesystem.get_src_path`: translate a virtual path to
the corresponding real path under the source root. -/
def get_src_path (src p : String) : String :=
  osPathJoin src (stripLeadingSlash p)

/-- Python dict lookup `store[p]` / membership `p in store` on the
insertion-ordered association list. -/
def lookupStore : PermStore → String → Option PermRecord
  | [], _ => none
  | (q, r) :: rest, p => if q = p then some r else lookupStore rest p

/-- Python dict assignment `store[p] = r`: updates the record in place if the
key is present (keeping its position), otherwise appends at the end. -/
def setStore : PermStore → String → PermRecord → PermStore
  | [], p, r => [(p, r)]
  | (q, s) :: rest, p, r =>
      if q = p then (p, r) :: rest else (q, s) :: setStore rest p r

/-- `PermissionRemappedFilesystem.get_permissions`: look up the record for
`p`, lazily inserting `uid 0, gid 0, mode` equal to the real file's current
`st_mode` if the path has no record yet.  The error case is `os.lstat`
raising on a missing real path. -/
def get_permissions (fs : RealFS) (src : String) (store : PermStore)
    (p : String) : Except Unit (PermRecord × PermStore) :=
  match lookupStore store p with
  | some r => .ok (r, store)
  | none =>
    match fs.lstat (get_src_path src p) with
    | none => .error ()
    | some st =>
      let r : PermRecord := ⟨0, 0, st.st_mode⟩
      .ok (r, setStore store p r)

/-- The attribute dict returned by `PermissionRemappedFilesystem.getattr`. -/
structure AttrBundle where
  st_mode : Nat
  st_uid : Nat
  st_gid : Nat
  st_nlink : Nat
  st_size : Nat
  st_blocks : Nat
  st_blksize : Nat
  st_ino : Nat
  st_dev : Nat
  st_ctime : Nat
  st_mtime : Nat
  st_atime : Nat
deriving DecidableEq, Repr

/-- `PermissionRemappedFilesystem.getattr`: `os.lstat` the real path (raising
if absent), then take mode/uid/gid from the store via `get_permissions` and
everything else from the real stat result.  Returns the possibly grown store
alongside the bundle. -/
def getattr (fs : RealFS) (src : String) (store : PermStore) (p : String) :
    Except Unit (AttrBundle × PermStore) :=
  match fs.lstat (get_src_path src p) with
  | none => .error ()
  | some stats =>
    match get_permissions fs src store p with
    | .error e => .error e
    | .ok (perms, store2) =>
      .ok ({ st_mode := perms.mode, st_uid := perms.uid, st_gid := perms.gid,
             st_nlink := stats.st_nlink, st_size := stats.st_size,
             st_blocks := stats.st_blocks, st_blksize := stats.st_blksize,
             st_ino := stats.st_ino, st_dev := stats.st_dev,
             st_ctime := stats.st_ctime, st_mtime := stats.st_mtime,
             st_atime := stats.st_atime }, store2)

/-- `PermissionRemappedFilesystem.chown`: if the path has no record, create
one with the given uid/gid and mode copied from the real file (`os.lstat`,
which raises if the real path is missing); otherwise update only the uid and
gid fields.  The real filesystem is returned unchanged: the method never
writes to it. -/
def chown (fs : RealFS) (src : String) (store : PermStore) (p : String)
    (uid gid : Nat) : Except Unit (RealFS × PermStore) :=
  match lookupStore store p with
  | none =>
    match fs.lstat (get_src_path src p) with
    | none => .error ()
    | some st => .ok (fs, setStore store p ⟨uid, gid, st.st_mode⟩)
  | some r => .ok (fs, setStore store p ⟨uid, gid, r.mode⟩)

/-- `PermissionRemappedFilesystem.chmod`: if the path has no record, create
one with uid 0, gid 0 and the given mode; otherwise update only the mode
field.  No real-filesystem call is made at all, so this cannot fail; the
real filesystem is returned unchanged. -/
def chmod (fs : RealFS) (src : String) (store : PermStore) (p : String)
    (mode : Nat) : RealFS × PermStore :=
  match lookupStore store p with
  | none => (fs, setStore store p ⟨0, 0, mode⟩)
  | some r => (fs, setStore store p ⟨r.uid, r.gid, mode⟩)

/-- Python `list.remove(a)`: remove the first occurrence of `a`, raising
`ValueError` if `a` is not in the list. -/
def listRemove (xs : List String) (a : String) : Except Unit (List String) :=
  match xs with
  | [] => .error ()
  | x :: rest => if x = a then .ok rest else (listRemove rest a).map (x :: ·)

/-- `PermissionRemappedFilesystem.readdir`: start from `['.', '..']`, extend
with the real directory listing when the real path is a directory, and, when
listing the root, call `entries.remove(REMAPPER_PERM_FILE)` — which raises
`ValueError` when the sidecar name is absent from the listing. -/
def readdir (fs : RealFS) (src : String) (p : String) :
    Except Unit (List String) :=
  let real_path := get_src_path src p
  let entries :=
    [".", ".."] ++ (if fs.isdir real_path then fs.listdir real_path else [])
  if p = "/" then listRemove entries REMAPPER_PERM_FILE else .ok entries

/-- Longest common elementwise prefix length of two component lists, as
`os.path.commonprefix` computes on the split path lists inside
`posixpath.relpath`. -/
def commonPrefixLen : List String → List String → Nat
  | a :: as, b :: bs => if a = b then commonPrefixLen as bs + 1 else 0
  | _, _ => 0

/-- `posixpath.normpath` restricted to absolute inputs: empty and `.`
components vanish, `..` pops (never accumulating, since the path is
absolute).  On absolute inputs `os.path.abspath` is exactly this function. -/
def normCompsAbs (comps : List String) : List String :=
  comps.foldl
    (fun acc comp =>
      if comp = "" ∨ comp = "." then acc
      else if comp = ".." then acc.dropLast
      else acc ++ [comp])
    []

/-- Python `str.split('/')` (and `String.splitOn "/"`), reimplemented by
structural recursion over the character list so that it reduces
computationally. -/
def splitOnSlashAux : List Char → List Char → List String
  | [], acc => [String.mk acc.reverse]
  | c :: cs, acc =>
      if c = '/' then String.mk acc.reverse :: splitOnSlashAux cs []
      else splitOnSlashAux cs (c :: acc)

/-- Split a path string on slashes. -/
def splitOnSlash (s : String) : List String := splitOnSlashAux s.data []

/-- Python `path.startswith('//') and not path.startswith('///')`: exactly
two leading slashes (POSIX preserves a double leading slash). -/
def twoLeadSlashes (s : String) : Bool :=
  match s.data with
  | '/' :: '/' :: '/' :: _ => false
  | '/' :: '/' :: _ => true
  | _ => false

/-- `posixpath.normpath` on an absolute path: collapse components and restore
the leading slash (two leading slashes are preserved, per POSIX). -/
def normpathAbs (p : String) : String :=
  let lead := if twoLeadSlashes p then "//" else "/"
  lead ++ String.intercalate "/" (normCompsAbs (splitOnSlash p))

/-- `os.path.relpath(path, start)` for absolute `path` and `start` (the only
case `readlink` reaches: the target is guarded to start with `/`, and the
mount is configured with an absolute source root).  Python additionally
resolves relative inputs against the process working directory, which this
model omits. -/
def relpathAbs (path start : String) : String :=
  let pl := (splitOnSlash (normpathAbs path)).filter (fun c => !decide (c = ""))
  let sl := (splitOnSlash (normpathAbs start)).filter (fun c => !decide (c = ""))
  let i := commonPrefixLen sl pl
  let rel := List.replicate (sl.length - i) ".." ++ pl.drop i
  if rel = [] then "." else String.intercalate "/" rel

/-- `PermissionRemappedFilesystem.readlink`: read the real symlink target
(`os.readlink`, raising if the path is not a symlink / missing, modelled by
`readlinkTarget = none`); if the target is absolute, remap it with
`os.path.relpath(target, self.src_path)`; otherwise return it unchanged.
An empty target would make `path[0]` raise `IndexError` in Python. -/
def readlink (fs : RealFS) (src : String) (p : String) : Except Unit String :=
  match fs.readlinkTarget (get_src_path src p) with
  | none => .error ()
  | some t =>
    if t = "" then .error ()
    else if headIsSlash t then .ok (relpathAbs t src)
    else .ok t

/-- Remove a real path from the real-filesystem view: after `os.unlink(rp)`
the path no longer stats and is no longer a symlink.  (Directory listings of
the parent are not tracked by the claims and are left as-is.) -/
def removeRealPath (fs : RealFS) (rp : String) : RealFS :=
  { fs with
    lstat := fun q => if q = rp then none else fs.lstat q,
    readlinkTarget := fun q => if q = rp then none else fs.readlinkTarget q }

/-- `PermissionRemappedFilesystem.unlink`: pure passthrough `os.unlink` on the
translated path (raising if it does not exist).  The permission store is not
consulted or modified. -/
def unlink (fs : RealFS) (src : String) (store : PermStore) (p : String) :
    Except Unit (RealFS × PermStore) :=
  let rp := get_src_path src p
  match fs.lstat rp with
  | none => .error ()
  | some _ => .ok (removeRealPath fs rp, store)

/-- The pruning loop of `PermissionRemappedFilesystem.destroy`: for each
record in insertion order, `os.lstat` the translated real path (raising if it
is gone); skip the record when `stats.st_mode == perms['mode'] and
perms['uid'] == 0 and perms['gid'] == 0`; keep it unchanged otherwise. -/
def pruneStore (fs : RealFS) (src : String) : PermStore → Except Unit PermStore
  | [] => .ok []
  | (p, r) :: rest =>
    match fs.lstat (get_src_path src p) with
    | none => .error ()
    | some st =>
      match pruneStore fs src rest with
      | .error e => .error e
      | .ok tail =>
        .ok (if st.st_mode = r.mode ∧ r.uid = 0 ∧ r.gid = 0 then tail
             else (p, r) :: tail)

/-- `PermissionRemappedFilesystem.destroy`: run the pruning loop, then
unconditionally open the sidecar file for writing and `json.dump` the pruned
mapping into it — the dump happens even when the mapping is empty.  The
result is the sidecar file state after unmount: `some content` means the file
exists with that content; an error (a record whose real path is gone) aborts
before the file is opened, so nothing is written. -/
def destroy (fs : RealFS) (src : String) (store : PermStore) :
    Except Unit (Option PermStore) :=
  (pruneStore fs src store).map some

/-- The sidecar file as found on disk at mount time: `none` means the file is
absent; `some (Except.ok s)` means it parses (as the expected mapping) to
`s`; `some (Except.error ())` means `json.load` raises on it. -/
abbrev SidecarFile := Option (Except Unit PermStore)

/-- The store-loading part of `PermissionRemappedFilesystem.__init__`: if the
sidecar file exists, `json.load` it — any parse exception propagates out of
the constructor uncaught; otherwise start with the empty mapping. -/
def fsInit : SidecarFile → Except Unit PermStore
  | none => .ok []
  | some (.ok s) => .ok s
  | some (.error e) => .error e

/-- The pruning condition of `destroy`, packaged as the predicate deciding
whether a record survives serialization: kept iff NOT (the re-resolved real
mode equals the stored mode, and uid and gid are both 0).  A record whose
real path is missing never reaches this test (the loop raises first). -/
def keptRecord (fs : RealFS) (src : String) (p : String) (r : PermRecord) :
    Bool :=
  match fs.lstat (get_src_path src p) with
  | some st => ! decide (st.st_mode = r.mode ∧ r.uid = 0 ∧ r.gid = 0)
  | none => true

/-- Stat of the example source root directory. -/
def exStatRoot : RealStat := ⟨0o40755, 2, 4096, 8, 4096, 1, 64, 100, 100, 100⟩

/-- Stat of the example regular file `a`. -/
def exStatA : RealStat := ⟨0o100644, 1, 10, 1, 4096, 2, 64, 100, 100, 100⟩

/-- Stat of the example regular file `b`. -/
def exStatB : RealStat := ⟨0o100600, 1, 20, 1, 4096, 3, 64, 100, 100, 100⟩

/-- Stat of the example symlink `link`. -/
def exStatLink : RealStat := ⟨0o120777, 1, 4, 1, 4096, 4, 64, 100, 100, 100⟩

/-- Stat of the example subdirectory `sub`. -/
def exStatSub : RealStat := ⟨0o40700, 2, 4096, 8, 4096, 5, 64, 100, 100, 100⟩

/-- A concrete real filesystem used by the witnesses: source root `/src`
containing files `a`, `b`, a symlink `link` pointing at `/src`, and a
subdirectory `sub` that happens to contain an entry named like the sidecar
file.  Crucially, the root listing does NOT contain the sidecar file. -/
def exFS : RealFS :=
  { lstat := fun q =>
      if q = "/src/" then some exStatRoot
      else if q = "/src/a" then some exStatA
      else if q = "/src/b" then some exStatB
      else if q = "/src/link" then some exStatLink
      else if q = "/src/sub" then some exStatSub
      else none,
    isdir := fun q => decide (q = "/src/" ∨ q = "/src/sub"),
    listdir := fun q =>
      if q = "/src/" then ["a", "b", "link", "sub"]
      else if q = "/src/sub" then [REMAPPER_PERM_FILE]
      else [],
    readlinkTarget := fun q =>
      if q = "/src/link" then some "/src" else none }

/-- A concrete real filesystem whose source root is an empty directory. -/
def exEmptyFS : RealFS :=
  { lstat := fun q => if q = "/src/" then some exStatRoot else none,
    isdir := fun q => decide (q = "/src/"),
    listdir := fun _ => [],
    readlinkTarget := fun _ => none }

theorem lookupStore_setStore_self (s : PermStore) (p : String)
    (r : PermRecord) : lookupStore (setStore s p r) p = some r := by
  induction s with
  | nil => simp [setStore, lookupStore]
  | cons hd tl ih =>
    obtain ⟨q, x⟩ := hd
    by_cases h : q = p
    · subst h; simp [setStore, lookupStore]
    · simp [setStore, lookupStore, h, ih]

theorem setStore_setStore_self (s : PermStore) (p : String)
    (a b : PermRecord) : setStore (setStore s p a) p b = setStore s p b := by
  induction s with
  | nil => simp [setStore]
  | cons hd tl ih =>
    obtain ⟨q, x⟩ := hd
    by_cases h : q = p
    · subst h; simp [setStore]
    · simp [setStore, h, ih]

theorem except_map_ok {α β : Type} (f : α → β) (a : α) :
    (Except.ok a : Except Unit α).map f = .ok (f a) := rfl

theorem except_map_error {α β : Type} (f : α → β) :
    (Except.error () : Except Unit α).map f = .error () := rfl

theorem commonPrefixLen_self (l : List String) :
    commonPrefixLen l l = l.length := by
  induction l with
  | nil => rfl
  | cons a as ih => simp [commonPrefixLen, ih]

theorem relpathAbs_self (s : String) : relpathAbs s s = "." := by
  unfold relpathAbs
  simp [commonPrefixLen_self, List.drop_length]

theorem pruneStore_eq_filter (fs : RealFS) (src : String) (store : PermStore)
    (h : ∀ pr ∈ store, (fs.lstat (get_src_path src pr.1)).isSome) :
    pruneStore fs src store
      = .ok (store.filter fun pr => keptRecord fs src pr.1 pr.2) := by
  induction store with
  | nil => rfl
  | cons hd tl ih =>
    obtain ⟨p, r⟩ := hd
    obtain ⟨st, hst⟩ :=
      Option.isSome_iff_exists.mp (h ⟨p, r⟩ (List.mem_cons_self _ _))
    have ihtl := ih (fun pr hpr => h pr (List.mem_cons_of_mem _ hpr))
    by_cases hc : st.st_mode = r.mode ∧ r.uid = 0 ∧ r.gid = 0
    · simp [pruneStore, hst, ihtl, List.filter_cons, keptRecord, hc]
    · have hor : ¬st.st_mode = r.mode ∨ ¬r.uid = 0 ∨ ¬r.gid = 0 := by tauto
      simp [pruneStore, hst, ihtl, List.filter_cons, keptRecord, hc, hor]

theorem pruneStore_all_trivial (fs : RealFS) (src : String) (store : PermStore)
    (h : ∀ pr ∈ store,
      (fs.lstat (get_src_path src pr.1)).map RealStat.st_mode
        = some pr.2.mode ∧ pr.2.uid = 0 ∧ pr.2.gid = 0) :
    pruneStore fs src store = .ok [] := by
  induction store with
  | nil => rfl
  | cons hd tl ih =>
    obtain ⟨p, r⟩ := hd
    obtain ⟨hm, hu, hg⟩ := h ⟨p, r⟩ (List.mem_cons_self _ _)
    obtain ⟨st, hst, hmode⟩ := Option.map_eq_some'.mp hm
    have ihtl := ih (fun pr hpr => h pr (List.mem_cons_of_mem _ hpr))
    simp only [pruneStore, hst, ihtl]
    simp [hmode, hu, hg]
    exact ⟨hu, hg⟩

theorem pruneStore_error_of_missing (fs : RealFS) (src : String)
    (store : PermStore) (p : String) (hin : (lookupStore store p).isSome)
    (hmiss : fs.lstat (get_src_path src p) = none) :
    pruneStore fs src store = .error () := by
  induction store with
  | nil => simp [lookupStore] at hin
  | cons hd tl ih =>
    obtain ⟨q, r⟩ := hd
    by_cases hq : q = p
    · subst hq; simp [pruneStore, hmiss]
    · have hin2 : (lookupStore tl p).isSome := by
        simpa [lookupStore, hq] using hin
      have htl := ih hin2
      cases hl : fs.lstat (get_src_path src q) with
      | none => simp [pruneStore, hl]
      | some st => simp [pruneStore, hl, htl]

/-- C1 (counterexample to the claim as stated): mounting over an empty source
directory with no sidecar file does start with an empty store, but unmounting
after a session with no chmod/chown calls does NOT leave the sidecar file
unwritten: `destroy` unconditionally opens the sidecar for writing and dumps
the (empty) pruned mapping, so the file exists with empty content
(`some []`), not `none`. -/
theorem C1_counterexample :
    fsInit none = .ok ([] : PermStore) ∧
    destroy exEmptyFS "/src" [] = .ok (some ([] : PermStore)) ∧
    destroy exEmptyFS "/src" [] ≠ .ok none := by
  refine ⟨rfl, rfl, ?_⟩
  intro h
  rw [show destroy exEmptyFS "/src" [] = .ok (some ([] : PermStore))
        from rfl] at h
  exact Option.noConfusion (Except.ok.inj h)

/-- C1 (amended): with no sidecar file the store starts empty; `getattr`
of the root returns the real root directory's mode with uid 0 and gid 0; and
after a session containing no chmod/chown calls (so the store holds only
lazily seeded default records whose stored mode still matches the real mode),
`destroy` succeeds and writes a sidecar file containing the EMPTY mapping —
a file is written, its content is the empty mapping. -/
theorem C1_mount_getattr_destroy (fs : RealFS) (src : String)
    (store : PermStore) (st : RealStat)
    (hroot : fs.lstat (get_src_path src "/") = some st)
    (hstore : ∀ pr ∈ store,
      (fs.lstat (get_src_path src pr.1)).map RealStat.st_mode
        = some pr.2.mode ∧ pr.2.uid = 0 ∧ pr.2.gid = 0) :
    fsInit none = .ok ([] : PermStore) ∧
    (getattr fs src [] "/").map (fun x => (x.1.st_mode, x.1.st_uid, x.1.st_gid))
      = .ok (st.st_mode, 0, 0) ∧
    destroy fs src store = .ok (some []) := by
  refine ⟨rfl, ?_, ?_⟩
  · simp [getattr, get_permissions, lookupStore, hroot, except_map_ok]
  · simp [destroy, pruneStore_all_trivial fs src store hstore, except_map_ok]

/-- C1 witness: the amended statement evaluated over the concrete example
filesystem, with the store holding one lazily seeded default record. -/
theorem C1_witness :
    fsInit none = .ok ([] : PermStore) ∧
    (getattr exFS "/src" [] "/").map
      (fun x => (x.1.st_mode, x.1.st_uid, x.1.st_gid))
      = .ok (exStatRoot.st_mode, 0, 0) ∧
    destroy exFS "/src" [("/a", ⟨0, 0, 0o100644⟩)] = .ok (some []) :=
  C1_mount_getattr_destroy exFS "/src" [("/a", ⟨0, 0, 0o100644⟩)]
    exStatRoot rfl (by decide)

/-- C2: evaluation of the code at the failing input.  When the real root
listing does not contain `.fs_perm_remapper.json` (for example a fresh mount
over a source directory with no sidecar file), `readdir` of the root raises
`ValueError` from `entries.remove` instead of returning the listing; a
non-root directory that does contain an entry with the sidecar name returns
it unfiltered. -/
theorem C2_readdir_eval :
    readdir exFS "/src" "/" = .error () ∧
    readdir exFS "/src" "/sub" = .ok [".", "..", REMAPPER_PERM_FILE] :=
  ⟨rfl, rfl⟩

/-- C3: chown and chmod mutate only the in-memory permission store; the real
filesystem component of the result is the input real filesystem unchanged
(chown can also fail when the real path is missing, in which case nothing at
all changes). -/
theorem C3_chmod_chown_frame (fs : RealFS) (src : String) (store : PermStore)
    (p : String) (uid gid mode : Nat) :
    (chmod fs src store p mode).1 = fs ∧
    (chown fs src store p uid gid).map Prod.fst
      = (chown fs src store p uid gid).map (fun _ => fs) := by
  unfold chmod chown
  cases lookupStore store p with
  | none => cases fs.lstat (get_src_path src p) <;> exact ⟨rfl, rfl⟩
  | some r => exact ⟨rfl, rfl⟩

/-- C4: at serialization time, destroy re-resolves every record's current
real mode and persists exactly the records that are not trivial defaults:
the written mapping is the store filtered by the kept-record predicate
(uid, gid not both 0, or stored mode differing from the re-resolved real
mode), each survivor unchanged and in order. -/
theorem C4_destroy_prunes_trivial (fs : RealFS) (src : String)
    (store : PermStore)
    (h : ∀ pr ∈ store, (fs.lstat (get_src_path src pr.1)).isSome) :
    destroy fs src store
      = .ok (some (store.filter fun pr => keptRecord fs src pr.1 pr.2)) := by
  simp [destroy, pruneStore_eq_filter fs src store h, except_map_ok]

/-- C4 witness: over the concrete example filesystem, a trivial default
record for `/a` is dropped and a record for `/b` with nonzero uid is kept. -/
theorem C4_witness :
    destroy exFS "/src" [("/a", ⟨0, 0, 0o100644⟩), ("/b", ⟨7, 0, 0o100600⟩)]
      = .ok (some [("/b", ⟨7, 0, 0o100600⟩)]) := by
  rw [C4_destroy_prunes_trivial exFS "/src"
    [("/a", ⟨0, 0, 0o100644⟩), ("/b", ⟨7, 0, 0o100600⟩)] (by decide)]
  rfl

/-- C5: on a path with no record whose real path exists, the first
`get_permissions` inserts and returns the default record
(uid 0, gid 0, real mode) and the second returns the same record with no
further store mutation; consequently two consecutive `getattr` calls return
identical results, with mode equal to the real mode, uid 0 and gid 0. -/
theorem C5_lazy_default_idempotent (fs : RealFS) (src : String)
    (store : PermStore) (p : String) (st : RealStat)
    (hnone : lookupStore store p = none)
    (hst : fs.lstat (get_src_path src p) = some st) :
    get_permissions fs src store p
      = .ok (⟨0, 0, st.st_mode⟩, setStore store p ⟨0, 0, st.st_mode⟩) ∧
    get_permissions fs src (setStore store p ⟨0, 0, st.st_mode⟩) p
      = .ok (⟨0, 0, st.st_mode⟩, setStore store p ⟨0, 0, st.st_mode⟩) ∧
    getattr fs src store p
      = getattr fs src (setStore store p ⟨0, 0, st.st_mode⟩) p ∧
    (getattr fs src store p).map
      (fun x => (x.1.st_uid, x.1.st_gid, x.1.st_mode))
      = .ok (0, 0, st.st_mode) := by
  have h1 : get_permissions fs src store p
      = .ok (⟨0, 0, st.st_mode⟩, setStore store p ⟨0, 0, st.st_mode⟩) := by
    simp [get_permissions, hnone, hst]
  have h2 : get_permissions fs src (setStore store p ⟨0, 0, st.st_mode⟩) p
      = .ok (⟨0, 0, st.st_mode⟩, setStore store p ⟨0, 0, st.st_mode⟩) := by
    simp [get_permissions, lookupStore_setStore_self]
  refine ⟨h1, h2, ?_, ?_⟩
  · simp [getattr, hst, h1, h2]
  · simp [getattr, hst, h1, except_map_ok]

/-- C5 witness: the lazy default for the root of the concrete example
filesystem. -/
theorem C5_witness :
    get_permissions exFS "/src" [] "/"
      = .ok (⟨0, 0, exStatRoot.st_mode⟩,
             setStore [] "/" ⟨0, 0, exStatRoot.st_mode⟩) :=
  (C5_lazy_default_idempotent exFS "/src" [] "/" exStatRoot rfl rfl).1

/-- C6: on a fresh path whose real path exists, chmod-then-chown and
chown-then-chmod produce the same final store, holding exactly the record
uid 42, gid 42, mode 0o600 at that path. -/
theorem C6_chmod_chown_commute (fs : RealFS) (src : String)
    (store : PermStore) (p : String) (st : RealStat)
    (hnone : lookupStore store p = none)
    (hst : fs.lstat (get_src_path src p) = some st) :
    chown fs src (chmod fs src store p 0o600).2 p 42 42
      = .ok (fs, setStore store p ⟨42, 42, 0o600⟩) ∧
    (chown fs src store p 42 42).map (fun x => (chmod x.1 src x.2 p 0o600).2)
      = .ok (setStore store p ⟨42, 42, 0o600⟩) := by
  constructor
  · simp [chmod, hnone, chown, lookupStore_setStore_self,
      setStore_setStore_self]
  · simp [chown, hnone, hst, chmod, lookupStore_setStore_self,
      setStore_setStore_self, except_map_ok]

/-- C6 witness: both call orders on the fresh path `/a` of the concrete
example filesystem yield the single record uid 42, gid 42, mode 0o600. -/
theorem C6_witness :
    chown exFS "/src" (chmod exFS "/src" [] "/a" 0o600).2 "/a" 42 42
      = .ok (exFS, setStore [] "/a" ⟨42, 42, 0o600⟩) ∧
    (chown exFS "/src" [] "/a" 42 42).map
      (fun x => (chmod x.1 "/src" x.2 "/a" 0o600).2)
      = .ok (setStore [] "/a" ⟨42, 42, 0o600⟩) :=
  C6_chmod_chown_commute exFS "/src" [] "/a" exStatA rfl rfl

/-- C7: when every record in the store is non-trivial (kept by the pruning
predicate) and every recorded path still exists, serialization keeps the
store exactly as it is, and loading the written sidecar yields the same
store: a sidecar holding only non-trivial entries is a fixed point of the
serialize/load round trip. -/
theorem C7_roundtrip_fixed_point (fs : RealFS) (src : String)
    (store : PermStore)
    (hex : ∀ pr ∈ store, (fs.lstat (get_src_path src pr.1)).isSome)
    (hkeep : ∀ pr ∈ store, keptRecord fs src pr.1 pr.2 = true) :
    pruneStore fs src store = .ok store ∧
    fsInit (some (pruneStore fs src store)) = .ok store := by
  have h := pruneStore_eq_filter fs src store hex
  have hf : store.filter (fun pr => keptRecord fs src pr.1 pr.2) = store :=
    List.filter_eq_self.mpr hkeep
  rw [h, hf]
  exact ⟨rfl, rfl⟩

/-- C7 witness: a store of two non-trivial records over the concrete example
filesystem survives the serialize/load round trip unchanged. -/
theorem C7_witness :
    pruneStore exFS "/src"
      [("/a", ⟨1000, 1000, 0o100644⟩), ("/b", ⟨0, 0, 0o100755⟩)]
      = .ok [("/a", ⟨1000, 1000, 0o100644⟩), ("/b", ⟨0, 0, 0o100755⟩)] :=
  (C7_roundtrip_fixed_point exFS "/src"
    [("/a", ⟨1000, 1000, 0o100644⟩), ("/b", ⟨0, 0, 0o100755⟩)]
    (by decide) (by decide)).1

/-- C8: at mount time, an absent sidecar file yields the empty store, a
sidecar that fails to parse makes startup fail with the propagated parse
error (no silent fallback to an empty store), and a parsing sidecar loads
verbatim. -/
theorem C8_load_absent_empty_corrupt_fatal :
    fsInit none = .ok ([] : PermStore) ∧
    fsInit (some (.error ())) = .error () ∧
    ∀ s : PermStore, fsInit (some (.ok s)) = .ok s :=
  ⟨rfl, rfl, fun _ => rfl⟩

/-- C9: readlink rewrites an absolute real target relative to the source
root; a target equal to the source root itself comes back as `.`; a relative
target is returned unchanged. -/
theorem C9_readlink_rescope (fs : RealFS) (src p t : String)
    (h : fs.readlinkTarget (get_src_path src p) = some t) (hne : t ≠ "") :
    (headIsSlash t = true → readlink fs src p = .ok (relpathAbs t src)) ∧
    (headIsSlash t = false → readlink fs src p = .ok t) ∧
    (t = src → headIsSlash t = true → readlink fs src p = .ok ".") := by
  refine ⟨fun habs => ?_, fun hrel => ?_, fun heq habs => ?_⟩
  · simp [readlink, h, hne, habs]
  · simp [readlink, h, hne, hrel]
  · subst heq
    simp [readlink, h, hne, habs, relpathAbs_self]

/-- C9 witness: the example symlink `/link` has real absolute target `/src`,
which is the source root, and readlink returns `.`. -/
theorem C9_witness : readlink exFS "/src" "/link" = .ok "." :=
  (C9_readlink_rescope exFS "/src" "/link" "/src" rfl (by decide)).2.2
    rfl (by decide)

/-- C10: if the store holds a record for a path whose translated real path no
longer exists, destroy fails (os.lstat raises in the pruning loop) before the
sidecar file is opened for writing, so nothing is persisted; and the unlink
passthrough never removes store records, which is how such stale records
arise. -/
theorem C10_destroy_missing_path (fs : RealFS) (src : String)
    (store : PermStore) (p : String) (hin : (lookupStore store p).isSome)
    (hmiss : fs.lstat (get_src_path src p) = none) :
    destroy fs src store = .error () ∧
    ∀ q fs2 store2, unlink fs src store q = .ok (fs2, store2) →
      store2 = store := by
  constructor
  · simp [destroy, pruneStore_error_of_missing fs src store p hin hmiss,
      except_map_error]
  · intro q fs2 store2 h
    simp only [unlink] at h
    cases hl : fs.lstat (get_src_path src q) with
    | none => rw [hl] at h; cases h
    | some st =>
      rw [hl] at h
      injection h with h2
      injection h2 with ha hb
      exact hb.symm

/-- C10 witness: a store holding a record for `/gone`, which has no real
counterpart in the concrete example filesystem, makes destroy fail. -/
theorem C10_witness :
    destroy exFS "/src" [("/gone", ⟨1, 1, 5⟩)] = .error () :=
  (C10_destroy_missing_path exFS "/src" [("/gone", ⟨1, 1, 5⟩)]
    "/gone" rfl rfl).1
